import Mathlib

/-!
Verification of the LinkedIn job scraper (`src/main.py`).

The program is a two-stage fetch-then-extract pipeline:
* `get_job_ids` fetches one listing page and extracts job identifiers from
  `data-entity-urn` attributes of `div.base-card` elements nested in `li` items;
* `scrape_job_details` fetches one detail page and extracts five optional text
  fields by tag/class lookup;
* `main` orchestrates: one listing fetch, a rate-limited detail loop, and a
  single CSV serialization at the end.

The HTML layer (BeautifulSoup) is modelled by a tree of nodes with
document-order (pre-order) descendant traversal:
* `find_all(tag)` returns all descendant elements with the given tag, in
  document order;
* `find(tag, {"class": c})` returns the first descendant element with the
  given tag whose `class` attribute matches `c` under bs4's rule: the filter
  string equals one of the whitespace-separated classes, or equals the whole
  attribute string;
* `tag.get(attr)` returns the attribute value or `None`;
* `tag.text` concatenates all descendant text, and `.strip()` trims it;
* a bs4 `Tag` object is always truthy (`Tag.__bool__` returns `True`
  unconditionally), so `if tag_or_none:` is a `None`-check, while a plain
  string value (such as an attribute value) is falsy exactly when empty.

HTTP is modelled by an abstract result: either a connection-level error or a
response with a status code and a parsed body; `raise_for_status` raises
exactly when the status code is at least 400.
-/

namespace Scraper

/-- Python whitespace for `str.strip()` and `str.split()` with no argument:
space, tab, newline, carriage return, vertical tab, form feed. -/
def pyIsSpace (c : Char) : Bool :=
  c = ' ' || c = '\t' || c = '\n' || c = '\r' || c = '\x0b' || c = '\x0c'

/-- Python `s.split(sep)` for a one-character separator, on character lists:
always at least one (possibly empty) piece, one extra piece per separator
occurrence. -/
def splitChars (sep : Char) : List Char → List (List Char)
  | [] => [[]]
  | c :: cs =>
      let r := splitChars sep cs
      if c = sep then [] :: r
      else
        match r with
        | [] => [[c]]
        | h :: t => (c :: h) :: t

/-- Python `s.split(sep)` for a one-character separator. -/
def pySplit (sep : Char) (s : String) : List String :=
  (splitChars sep s.data).map String.mk

/-- Python `s.strip()`: remove leading and trailing whitespace. -/
def pyStrip (s : String) : String :=
  String.mk (((s.data.dropWhile pyIsSpace).reverse.dropWhile pyIsSpace).reverse)

/-- Python `s.split()` with no argument, on character lists: the maximal
whitespace-free words, dropping all whitespace. The second argument
accumulates the word being read, in order. -/
def wordsAux : List Char → List Char → List (List Char)
  | [], cur => if cur.isEmpty then [] else [cur]
  | c :: rest, cur =>
      if pyIsSpace c then
        if cur.isEmpty then wordsAux rest [] else cur :: wordsAux rest []
      else wordsAux rest (cur ++ [c])

/-- Python `s.replace(a, b)` for one-character pattern and replacement. -/
def pyReplaceChar (a b : Char) (s : String) : String :=
  String.mk (s.data.map (fun c => if c = a then b else c))

/-- An HTML parse-tree node: an element with a tag name, attributes in source
order, and children; or a text node. -/
inductive Node where
  | elem (tag : String) (attrs : List (String × String)) (children : List Node)
  | text (s : String)
deriving Repr

/-- Attribute lookup, as bs4's `tag.get(name)`: the first attribute with the
given name, or `none`. -/
def Node.getAttr (n : Node) (name : String) : Option String :=
  match n with
  | .elem _ attrs _ => (attrs.find? (fun p => p.1 = name)).map (fun p => p.2)
  | .text _ => none

mutual

/-- All descendants of a node (the node itself excluded), in document order:
each child followed by its own descendants. -/
def Node.descendants : Node → List Node
  | .text _ => []
  | .elem _ _ cs => Node.descList cs

/-- Document-order listing of the nodes of a forest: each root, then its
descendants, then the rest of the forest. -/
def Node.descList : List Node → List Node
  | [] => []
  | c :: rest => c :: (Node.descendants c ++ Node.descList rest)

end

/-- Does an element's `class` attribute value match a bs4 class filter string?
bs4 treats `class` as multi-valued: the filter matches if it equals one of the
whitespace-separated classes, or equals the complete attribute string. -/
def classMatches (filt attrVal : String) : Bool :=
  attrVal = filt || (wordsAux attrVal.data []).contains filt.data

/-- Does a node match a tag-name filter (bs4 `find_all(tag)` predicate)? -/
def Node.tagIs (n : Node) (tag : String) : Bool :=
  match n with
  | .elem t _ _ => t = tag
  | .text _ => false

/-- Does a node match a tag name together with a `class` filter
(bs4 `find(tag, {"class": cls})` predicate)? -/
def Node.matchesTagClass (n : Node) (tag cls : String) : Bool :=
  match n with
  | .elem t _ _ =>
      t = tag &&
        (match n.getAttr "class" with
         | some v => classMatches cls v
         | none => false)
  | .text _ => false

/-- bs4 `soup.find_all(tag)`: all descendant elements with the given tag, in
document order. -/
def Node.findAll (n : Node) (tag : String) : List Node :=
  n.descendants.filter (fun d => d.tagIs tag)

/-- bs4 `soup.find(tag, {"class": cls})`: the first descendant element matching
tag and class filter, in document order, or `none`. -/
def Node.findTagClass (n : Node) (tag cls : String) : Option Node :=
  n.descendants.find? (fun d => d.matchesTagClass tag cls)

mutual

/-- bs4 `tag.text`: concatenation of all descendant text, in document order. -/
def Node.getText : Node → String
  | .text s => s
  | .elem _ _ cs => Node.textList cs

/-- Concatenated text of a forest of nodes. -/
def Node.textList : List Node → String
  | [] => ""
  | c :: rest => Node.getText c ++ Node.textList rest

end

/-- Outcome of one HTTP GET: a connection-level failure (a
`requests.RequestException` raised by the transport), or a response carrying
its status code and parsed body. -/
inductive HttpResult where
  | err
  | resp (status : Nat) (body : Node)

/-- Models `response.raise_for_status()`: it raises exactly for client and server error
codes, i.e. status at least 400. -/
def raiseForStatusFails (status : Nat) : Bool :=
  400 ≤ status

/-- The body of the per-`li` loop in `get_job_ids` (src/main.py lines 51-60),
with its `try/except (AttributeError, IndexError)`:
`base_card_div = job.find("div", {"class": "base-card"})`, then
`if base_card_div and base_card_div.get("data-entity-urn"):` (a `Tag` is
always truthy, so this checks the div was found and the attribute value is a
non-empty string), then `.split(":")[3]` where an out-of-range index raises
`IndexError`, which the handler turns into skipping the element. -/
def extract_job_id (job : Node) : Option String :=
  match job.findTagClass "div" "base-card" with
  | none => none
  | some d =>
      match d.getAttr "data-entity-urn" with
      | none => none
      | some urn =>
          if urn = "" then none
          else (pySplit ':' urn).get? 3

/-- One iteration of the accumulation loop of `get_job_ids`: append the
extracted identifier when there is one, keep the accumulator otherwise. -/
def idStep (acc : List String) (job : Node) : List String :=
  match extract_job_id job with
  | some i => acc ++ [i]
  | none => acc

/-- The parsing phase of `get_job_ids` (src/main.py lines 46-62): scan
`find_all("li")` in document order and append each successfully extracted
identifier to the accumulator list. -/
def get_job_ids_parse (doc : Node) : List String :=
  (doc.findAll "li").foldl idStep []

/-- Embeds `get_job_ids` (src/main.py lines 16-66): on a transport error or a bad
status code the `except requests.RequestException` handler returns `[]`;
otherwise the response body is parsed. -/
def get_job_ids (r : HttpResult) : List String :=
  match r with
  | .err => []
  | .resp status body =>
      if raiseForStatusFails status then [] else get_job_ids_parse body

/-- The record built by `scrape_job_details`: a Python dict with six keys in
insertion order `job_id`, `job_title`, `company_name`, `time_posted`,
`num_applicants`, `location` (src/main.py lines 92-137, 143-144). Every key is
always present; all but `job_id` may be `None`. -/
structure JobPost where
  job_id : String
  job_title : Option String
  company_name : Option String
  time_posted : Option String
  num_applicants : Option String
  location : Option String
deriving Repr, DecidableEq

/-- The all-null record returned when a detail fetch fails
(src/main.py lines 143-144). -/
def nullJobPost (job_id : String) : JobPost :=
  { job_id := job_id, job_title := none, company_name := none,
    time_posted := none, num_applicants := none, location := none }

/-- Python truthiness of an optional bs4 element: `None` is falsy, a `Tag` is
always truthy (bs4 `Tag.__bool__` returns `True` unconditionally, even for an
element with no contents). -/
def tagTruthy : Option Node → Bool
  | some _ => true
  | none => false

/-- Python attribute access `x.text` on a value that is either a `Tag` or
`None`: on a `Tag` it yields the concatenated text, on `None` it raises
`AttributeError` (modelled as `Except.error ()`). -/
def pyText : Option Node → Except Unit String
  | some e => Except.ok e.getText
  | none => Except.error ()

/-- The `try` body of one field extraction in `scrape_job_details`
(e.g. src/main.py lines 96-99): `elem = job_soup.find(tag, {"class": cls})`
followed by the conditional expression `elem.text.strip() if elem else None`.
The guard uses Python truthiness; the `.text` access is where an
`AttributeError` could in principle arise. -/
def fieldTryBody (doc : Node) (tag cls : String) : Except Unit (Option String) :=
  let elem := doc.findTagClass tag cls
  if tagTruthy elem then
    (pyText elem).map (fun s => some (pyStrip s))
  else
    Except.ok none

/-- One field extraction with its `except AttributeError` handler
(e.g. src/main.py lines 95-101): an `AttributeError` in the body degrades the
field to `None`. -/
def fieldLookup (doc : Node) (tag cls : String) : Option String :=
  match fieldTryBody doc tag cls with
  | Except.ok v => v
  | Except.error _ => none

/-- The class filter for the job title `h2` (src/main.py lines 96-98). -/
def jobTitleClass : String :=
  "top-card-layout__title font-sans text-lg papabear:text-xl font-bold leading-open text-color-text mb-0 topcard__title"

/-- The class filter for the company name link (src/main.py lines 105-107). -/
def companyNameClass : String :=
  "topcard__org-name-link topcard__flavor--black-link"

/-- The class filter for the posted-time span (src/main.py lines 114-116). -/
def timePostedClass : String :=
  "posted-time-ago__text topcard__flavor--metadata"

/-- The class filter for the applicant-count span (src/main.py lines 123-125). -/
def numApplicantsClass : String :=
  "num-applicants__caption topcard__flavor--metadata topcard__flavor--bullet"

/-- The class filter for the location span (src/main.py lines 132-134). -/
def locationClass : String :=
  "topcard__flavor topcard__flavor--bullet"

/-- The parsing phase of `scrape_job_details` (src/main.py lines 89-139):
build the record field by field, each field by an independent guarded lookup
wrapped in `try/except AttributeError`. -/
def scrape_job_details_parse (job_id : String) (doc : Node) : JobPost :=
  { job_id := job_id
    job_title := fieldLookup doc "h2" jobTitleClass
    company_name := fieldLookup doc "a" companyNameClass
    time_posted := fieldLookup doc "span" timePostedClass
    num_applicants := fieldLookup doc "span" numApplicantsClass
    location := fieldLookup doc "span" locationClass }

/-- Embeds `scrape_job_details` (src/main.py lines 69-144): a transport error or a
bad status code is caught by `except requests.RequestException`, which returns
the record with every non-identifier field `None`; otherwise the body is
parsed. -/
def scrape_job_details (job_id : String) (r : HttpResult) : JobPost :=
  match r with
  | .err => nullJobPost job_id
  | .resp status body =>
      if raiseForStatusFails status then nullJobPost job_id
      else scrape_job_details_parse job_id body

/-! ## CSV serialization

`pd.DataFrame(job_list).to_csv(filename, index=False)` writes, in UTF-8, one
header row with the column names (the dict keys, in insertion order) and one
row per record, each row terminated by a newline. A cell is quoted (minimal
quoting) exactly when it contains the delimiter, the quote character, or a
line-break character, with embedded quote characters doubled; `None` is
written as an empty cell. -/

/-- Does a CSV cell need quoting under minimal quoting? -/
def needsQuote (s : List Char) : Bool :=
  s.any (fun c => c = ',' || c = '"' || c = '\n' || c = '\r')

/-- Double every quote character (CSV escaping inside a quoted cell). -/
def escChars : List Char → List Char
  | [] => []
  | c :: cs => if c = '"' then '"' :: '"' :: escChars cs else c :: escChars cs

/-- Serialize one CSV cell: quoted with doubled quotes when needed, verbatim
otherwise. -/
def writeCellChars (s : List Char) : List Char :=
  if needsQuote s then '"' :: (escChars s ++ ['"']) else s

/-- Serialize one CSV row: cells joined by commas. -/
def writeRowChars : List (List Char) → List Char
  | [] => []
  | [c] => writeCellChars c
  | c :: cs => writeCellChars c ++ ',' :: writeRowChars cs

/-- Serialize a CSV table: each row followed by a newline. -/
def writeTableChars : List (List (List Char)) → List Char
  | [] => []
  | r :: rs => writeRowChars r ++ '\n' :: writeTableChars rs

/-- Serialize a table of strings to the CSV file text. -/
def writeTable (t : List (List String)) : String :=
  String.mk (writeTableChars (t.map (fun r => r.map String.data)))

/-- Parser state for reading a CSV file: outside quotes, inside a quoted
cell, or just after a quote character inside a quoted cell. -/
inductive CsvMode where
  | unq
  | q
  | qq
deriving DecidableEq, Repr

/-- CSV reader: a character-by-character state machine over the remaining
input, the current cell, the current row, and the rows read so far. Outside
quotes a comma ends the cell and a newline ends the row; a quote at the start
of a cell opens a quoted cell, inside which a doubled quote denotes a literal
quote and a single quote closes the cell. -/
def runCsv : List Char → CsvMode → List Char → List (List Char) →
    List (List (List Char)) → List (List (List Char))
  | [], m, cell, row, acc =>
      if m = CsvMode.unq ∧ cell = [] ∧ row = [] then acc
      else acc ++ [row ++ [cell]]
  | ch :: rest, CsvMode.unq, cell, row, acc =>
      if ch = ',' then runCsv rest CsvMode.unq [] (row ++ [cell]) acc
      else if ch = '\n' then runCsv rest CsvMode.unq [] [] (acc ++ [row ++ [cell]])
      else if ch = '"' then
        (if cell = [] then runCsv rest CsvMode.q cell row acc
         else runCsv rest CsvMode.unq (cell ++ [ch]) row acc)
      else runCsv rest CsvMode.unq (cell ++ [ch]) row acc
  | ch :: rest, CsvMode.q, cell, row, acc =>
      if ch = '"' then runCsv rest CsvMode.qq cell row acc
      else runCsv rest CsvMode.q (cell ++ [ch]) row acc
  | ch :: rest, CsvMode.qq, cell, row, acc =>
      if ch = '"' then runCsv rest CsvMode.q (cell ++ ['"']) row acc
      else if ch = ',' then runCsv rest CsvMode.unq [] (row ++ [cell]) acc
      else if ch = '\n' then runCsv rest CsvMode.unq [] [] (acc ++ [row ++ [cell]])
      else runCsv rest CsvMode.unq cell row acc

/-- Parse a CSV file text into its rows of cells. -/
def parseCsv (s : String) : List (List String) :=
  (runCsv s.data CsvMode.unq [] [] []).map (fun r => r.map String.mk)

/-! ## Orchestrator -/

/-- The header row written by `to_csv`: the six record keys in insertion
order. -/
def headerRow : List String :=
  ["job_id", "job_title", "company_name", "time_posted", "num_applicants", "location"]

/-- The CSV data row of one record, columns in field declaration order,
`None` rendered as an empty cell. -/
def jobPostRow (p : JobPost) : List String :=
  [p.job_id, p.job_title.getD "", p.company_name.getD "", p.time_posted.getD "",
   p.num_applicants.getD "", p.location.getD ""]

/-- Models `random.uniform(a, b)` as `a + (b - a) * r` where `r` is the underlying
`random.random()` draw in `[0, 1)`. -/
def random_uniform (a b r : ℚ) : ℚ :=
  a + (b - a) * r

/-- One observable step of the orchestrator's detail loop
(src/main.py lines 174-181). -/
inductive Event where
  | fetchDetail (job_id : String)
  | appendRecord (p : JobPost)
  | sleepFor (d : ℚ)
deriving DecidableEq, Repr

/-- The detail loop of `main` (src/main.py lines 174-181): for each identifier
in order, fetch its details, append the record, then sleep for
`random.uniform(1, 3)` seconds — the sleep happens on every iteration,
including the last. `details` gives each identifier's HTTP outcome and
`draws i` is the `i`-th underlying unit random draw. Returns the event trace
and the accumulated record list. -/
def detailLoop (details : String → HttpResult) (draws : Nat → ℚ) :
    List String → Nat → List Event × List JobPost
  | [], _ => ([], [])
  | job_id :: rest, i =>
      let p := scrape_job_details job_id (details job_id)
      let r := detailLoop details draws rest (i + 1)
      (Event.fetchDetail job_id :: Event.appendRecord p ::
        Event.sleepFor (random_uniform 1 3 (draws i)) :: r.1,
       p :: r.2)

/-- The output filename (src/main.py line 155):
`f"{location.replace(' ', '_')}_{title.replace(' ', '_')}_jobs.csv"`. -/
def outputFilename (title location : String) : String :=
  pyReplaceChar ' ' '_' location ++ "_" ++ pyReplaceChar ' ' '_' title ++ "_jobs.csv"

/-- The observable outcome of one run of `main`: the detail-loop event trace,
the accumulated record list, and the file written (name and text), if any. -/
structure MainResult where
  trace : List Event
  job_list : List JobPost
  outputFile : Option (String × String)
deriving DecidableEq

/-- Embeds `main` (src/main.py lines 147-205), parameterized by the configured title
and location, the listing response, each identifier's detail response, and the
unit random draws. Fetches the identifier list; if it is empty, returns with
no file written; otherwise runs the detail loop and, when the record list is
non-empty, writes the CSV file. -/
def main_run (title location : String) (listing : HttpResult)
    (details : String → HttpResult) (draws : Nat → ℚ) : MainResult :=
  let id_list := get_job_ids listing
  if id_list.isEmpty then
    { trace := [], job_list := [], outputFile := none }
  else
    let r := detailLoop details draws id_list 0
    { trace := r.1
      job_list := r.2
      outputFile :=
        if r.2.isEmpty then none
        else some (outputFilename title location,
                   writeTable (headerRow :: r.2.map jobPostRow)) }

/-! ## Specification-side definitions

These definitions restate, in the spec's words, what a structurally valid
listing entry is and what value each detail field should take; the theorems
below compare them with the functions embedded from the source. -/

/-- A structurally valid listing entry, per the spec: a list-item element
whose nested `div` of class `base-card` (the first one in document order, the
one `find` locates) carries a non-empty `data-entity-urn` attribute with at
least four colon-separated segments. -/
def claim_valid_entry (li : Node) : Bool :=
  match li.findTagClass "div" "base-card" with
  | some d =>
      match d.getAttr "data-entity-urn" with
      | some urn => decide (urn ≠ "") && decide (4 ≤ (pySplit ':' urn).length)
      | none => false
  | none => false

/-- The identifier the spec assigns to a structurally valid entry: the fourth
colon-separated segment of its `data-entity-urn` attribute. -/
def claim_entry_id (li : Node) : String :=
  match li.findTagClass "div" "base-card" with
  | some d =>
      match d.getAttr "data-entity-urn" with
      | some urn => (pySplit ':' urn).getD 3 ""
      | none => ""
  | none => ""

/-- Transport failure on one HTTP call, per the spec's error taxonomy: a
connection error, or a response whose status makes `raise_for_status` raise. -/
def transportFailure (r : HttpResult) : Prop :=
  r = HttpResult.err ∨
    ∃ status body, r = HttpResult.resp status body ∧ raiseForStatusFails status = true

/-- The text content of the element a detail-field lookup finds, if any. -/
def foundText (doc : Node) (tag cls : String) : Option String :=
  (doc.findTagClass tag cls).map Node.getText

/-- The value of the guarded expression
`elem.text.strip() if elem else None` for one detail field, written without
the surrounding `try/except`: the stripped text when the element is found,
`None` otherwise. -/
def guardedFieldValue (doc : Node) (tag cls : String) : Option String :=
  match doc.findTagClass tag cls with
  | some e => some (pyStrip e.getText)
  | none => none

/-! ## Sample worlds used by witnesses and counterexamples -/

/-- A listing card `div` with the given `data-entity-urn` attribute. -/
def mkCard (urn : String) : Node :=
  Node.elem "div" [("class", "base-card relative w-full"), ("data-entity-urn", urn)] []

/-- A listing page with two structurally valid entries (identifiers `123` and
`456`), one unrelated entry, and one malformed entry (three segments). -/
def sampleListingDoc : Node :=
  Node.elem "html" []
    [Node.elem "ul" []
      [Node.elem "li" [] [mkCard "urn:li:jobPosting:123"],
       Node.elem "li" [] [Node.text "unrelated"],
       Node.elem "li" [] [mkCard "urn:li:456"],
       Node.elem "li" [] [mkCard "urn:li:jobPosting:456"]]]

/-- A listing page whose single entry has a `data-entity-urn` attribute that
is non-empty and has four colon-separated segments, the fourth being empty. -/
def listingDocEmptyId : Node :=
  Node.elem "html" [] [Node.elem "li" [] [mkCard "urn:li:jobPosting:"]]

/-- The `data-entity-urn` value of the single entry of `listingDocEmptyId`. -/
def urnWithEmptyId : String :=
  "urn:li:jobPosting:"

/-- A detail page on which all five field lookups succeed with non-empty
text. -/
def sampleDetailDoc : Node :=
  Node.elem "html" []
    [Node.elem "h2" [("class", jobTitleClass)] [Node.text " Python Developer "],
     Node.elem "a" [("class", companyNameClass)] [Node.text "Acme Corp"],
     Node.elem "span" [("class", timePostedClass)] [Node.text "2 weeks ago"],
     Node.elem "span" [("class", numApplicantsClass)] [Node.text "55 applicants"],
     Node.elem "span" [("class", locationClass)] [Node.text "Toronto, ON"]]

/-- A detail page whose job-title element is present but has no text content,
and which has none of the other four field elements. -/
def detailDocEmptyTitle : Node :=
  Node.elem "html" [] [Node.elem "h2" [("class", jobTitleClass)] []]

/-- Detail responses that fully succeed for every identifier. -/
def sampleDetails (job_id : String) : HttpResult :=
  match job_id with
  | _ => HttpResult.resp 200 sampleDetailDoc

/-- A fixed unit random draw for sample runs. -/
def sampleDraws (i : Nat) : ℚ :=
  match i with
  | _ => (1 : ℚ) / 2

/-! ## Helper lemmas -/

/-- The appending accumulation of `get_job_ids` is a `filterMap`. -/
theorem foldl_idStep_eq_filterMap (l : List Node) :
    ∀ acc : List String,
      l.foldl idStep acc = acc ++ l.filterMap extract_job_id := by
  induction l with
  | nil => intro acc; simp
  | cons x l ih =>
      intro acc
      cases h : extract_job_id x <;> simp [idStep, h, ih]

/-- A `filterMap` whose function is a guarded `some` is a `filter` followed by
a `map`. -/
theorem filterMap_guard_eq_filter_map {α β : Type} (p : α → Bool) (g : α → β)
    (l : List α) :
    l.filterMap (fun x => if p x then some (g x) else none) = (l.filter p).map g := by
  induction l with
  | nil => rfl
  | cons x l ih =>
      by_cases h : p x <;> simp [h, ih]

/-- The per-element extraction agrees with the spec-side description: it
succeeds exactly on structurally valid entries and then yields the fourth
colon-separated segment. -/
theorem extract_job_id_eq_guarded (li : Node) :
    extract_job_id li =
      if claim_valid_entry li then some (claim_entry_id li) else none := by
  unfold extract_job_id claim_valid_entry claim_entry_id
  cases h1 : li.findTagClass "div" "base-card" with
  | none => simp [h1]
  | some d =>
      cases h2 : d.getAttr "data-entity-urn" with
      | none => simp [h1, h2]
      | some urn =>
          by_cases h3 : urn = ""
          · simp [h1, h2, h3]
          · by_cases h4 : 4 ≤ (pySplit ':' urn).length
            · have h5 : 3 < (pySplit ':' urn).length := h4
              simp [h1, h2, h3, h4, List.getElem?_eq_getElem h5,
                List.getD_eq_getElem?_getD]
            · have h5 : (pySplit ':' urn).length ≤ 3 := by omega
              simp [h1, h2, h3, h4,
                List.getElem?_eq_none_iff.mpr (show (pySplit ':' urn).length ≤ 3 from h5)]

/-- Every branch of `scrape_job_details` sets the identifier field to its
input. -/
theorem scrape_job_details_job_id (job_id : String) (r : HttpResult) :
    (scrape_job_details job_id r).job_id = job_id := by
  cases r with
  | err => rfl
  | resp status body =>
      by_cases h : raiseForStatusFails status = true <;>
        simp [scrape_job_details, h, nullJobPost, scrape_job_details_parse]

/-- The `try` body of a field extraction never raises: the guard takes the
`None` branch exactly when the lookup failed, and a found element always has
a `.text` string. -/
theorem fieldTryBody_ok (doc : Node) (tag cls : String) :
    fieldTryBody doc tag cls = Except.ok (guardedFieldValue doc tag cls) := by
  unfold fieldTryBody guardedFieldValue
  cases h : doc.findTagClass tag cls <;> simp [h, tagTruthy, pyText, Except.map]

/-- A field extraction, handler included, equals the bare guarded
expression. -/
theorem fieldLookup_eq_guarded (doc : Node) (tag cls : String) :
    fieldLookup doc tag cls = guardedFieldValue doc tag cls := by
  unfold fieldLookup
  rw [fieldTryBody_ok]

/-! ## Claims -/

/-- C3: a transport failure — a connection error or a non-success status —
escapes neither fetch function: `get_job_ids` returns the empty identifier
list, and `scrape_job_details` returns the record with the input identifier
and every other field null. -/
theorem C3_transport_failure_contained (r : HttpResult) (job_id : String)
    (h : transportFailure r) :
    get_job_ids r = [] ∧ scrape_job_details job_id r = nullJobPost job_id := by
  rcases h with h | ⟨status, body, rfl, hs⟩
  · subst h; exact ⟨rfl, rfl⟩
  · exact ⟨by simp [get_job_ids, hs], by simp [scrape_job_details, hs]⟩

/-- Witness for C3: a 404 listing response yields `[]`, and a 404 detail
response yields the all-null record. -/
theorem C3_transport_failure_contained_witness :
    get_job_ids (HttpResult.resp 404 sampleListingDoc) = [] ∧
      scrape_job_details "123" (HttpResult.resp 404 sampleListingDoc) =
        nullJobPost "123" :=
  C3_transport_failure_contained (HttpResult.resp 404 sampleListingDoc) "123"
    (Or.inr ⟨404, sampleListingDoc, rfl, by decide⟩)

/-- C5: when the listing fetch yields no identifiers, `main` returns before
the detail loop and writes no output file. -/
theorem C5_empty_ids_no_output (title location : String) (listing : HttpResult)
    (details : String → HttpResult) (draws : Nat → ℚ)
    (h : get_job_ids listing = []) :
    main_run title location listing details draws =
      { trace := [], job_list := [], outputFile := none } := by
  simp [main_run, h]

/-- Witness for C5: a failed listing fetch gives an empty identifier list and
a run with no output file. -/
theorem C5_empty_ids_no_output_witness :
    get_job_ids HttpResult.err = [] ∧
      main_run "Python Developer" "Toronto" HttpResult.err sampleDetails sampleDraws =
        { trace := [], job_list := [], outputFile := none } :=
  ⟨rfl, C5_empty_ids_no_output "Python Developer" "Toronto" HttpResult.err
    sampleDetails sampleDraws rfl⟩

/-- C9: a listing entry whose `data-entity-urn` is non-empty and has four
colon-separated segments with an empty fourth segment contributes the empty
string to the identifier list — extracted identifiers are not validated to be
non-empty. -/
theorem C9_empty_fourth_segment_extracted :
    urnWithEmptyId ≠ "" ∧
      (pySplit ':' urnWithEmptyId).length = 4 ∧
      (pySplit ':' urnWithEmptyId).getD 3 "" = "" ∧
      get_job_ids (HttpResult.resp 200 listingDocEmptyId) = [""] := by
  decide

/-- C10: in `scrape_job_details`, no per-field `AttributeError` handler is
reachable — the `try` body never errors, because the conditional guards every
`.text` access and a found element is a tag — so each field's value is always
the one produced by the guarded expression. -/
theorem C10_field_handlers_unreachable (doc : Node) (tag cls : String) :
    fieldTryBody doc tag cls ≠ Except.error () ∧
      fieldLookup doc tag cls = guardedFieldValue doc tag cls := by
  constructor
  · rw [fieldTryBody_ok]; exact fun hcontra => by cases hcontra
  · exact fieldLookup_eq_guarded doc tag cls

/-- Counterexample to C2 as stated: on a detail page whose title element is
present but has no text content, the claim counts the title among the missing
fields and requires it to be null, but `scrape_job_details` returns the empty
string for it (the guard tests the element, not its text). -/
theorem C2_counterexample_empty_text_not_null :
    foundText detailDocEmptyTitle "h2" jobTitleClass = some "" ∧
      (scrape_job_details "1" (HttpResult.resp 200 detailDocEmptyTitle)).job_title =
        some "" ∧
      (scrape_job_details "1" (HttpResult.resp 200 detailDocEmptyTitle)).job_title ≠
        none := by
  decide

/-- C2 (amended): for every detail response body, the identifier field equals
the input identifier, all six keys are present (the record type is total), and
a field is null exactly when its element is absent — a present element always
yields a non-null (possibly empty) stripped text, so exactly the fields whose
elements are absent are null. -/
theorem C2_fields_null_iff_element_absent (job_id : String) (doc : Node) :
    (scrape_job_details_parse job_id doc).job_id = job_id ∧
      ((scrape_job_details_parse job_id doc).job_title = none ↔
        doc.findTagClass "h2" jobTitleClass = none) ∧
      ((scrape_job_details_parse job_id doc).company_name = none ↔
        doc.findTagClass "a" companyNameClass = none) ∧
      ((scrape_job_details_parse job_id doc).time_posted = none ↔
        doc.findTagClass "span" timePostedClass = none) ∧
      ((scrape_job_details_parse job_id doc).num_applicants = none ↔
        doc.findTagClass "span" numApplicantsClass = none) ∧
      ((scrape_job_details_parse job_id doc).location = none ↔
        doc.findTagClass "span" locationClass = none) := by
  refine ⟨rfl, ?_, ?_, ?_, ?_, ?_⟩ <;>
    · simp only [scrape_job_details_parse, fieldLookup_eq_guarded, guardedFieldValue]
      constructor
      · intro h
        cases hfind : Node.findTagClass doc _ _ <;> simp [hfind] at h ⊢
      · intro h
        simp [h]

/-- C1: on a listing response body, `get_job_ids` returns exactly the
identifiers of the structurally valid entries, in document order — for each
valid `li` the fourth colon-separated segment of its base-card's
`data-entity-urn` — and every malformed or unrelated entry is skipped without
aborting the scan (the function is total and the skipped entries simply do
not contribute). -/
theorem C1_listing_extraction (doc : Node) :
    get_job_ids (HttpResult.resp 200 doc) =
        ((doc.findAll "li").filter claim_valid_entry).map claim_entry_id ∧
      (get_job_ids (HttpResult.resp 200 doc)).length =
        ((doc.findAll "li").filter claim_valid_entry).length := by
  have hbody : get_job_ids (HttpResult.resp 200 doc) =
      (doc.findAll "li").filterMap extract_job_id := by
    show (if raiseForStatusFails 200 = true then [] else get_job_ids_parse doc) = _
    rw [if_neg (by decide)]
    unfold get_job_ids_parse
    rw [foldl_idStep_eq_filterMap]
    rfl
  have hext : (doc.findAll "li").filterMap extract_job_id =
      ((doc.findAll "li").filter claim_valid_entry).map claim_entry_id := by
    rw [List.filterMap_congr (fun li _ => extract_job_id_eq_guarded li)]
    exact filterMap_guard_eq_filter_map claim_valid_entry claim_entry_id _
  refine ⟨hbody.trans hext, ?_⟩
  rw [hbody, hext, List.length_map]

/-- The record list accumulated by the detail loop: exactly one record per
identifier, in order, each produced by `scrape_job_details` on that
identifier's response. -/
theorem detailLoop_records (details : String → HttpResult) (draws : Nat → ℚ) :
    ∀ (ids : List String) (i : Nat),
      (detailLoop details draws ids i).2 =
        ids.map (fun job_id => scrape_job_details job_id (details job_id)) := by
  intro ids
  induction ids with
  | nil => intro i; rfl
  | cons job_id rest ih =>
      intro i
      simp [detailLoop, ih (i + 1)]

/-- The event trace of the detail loop: for the `k`-th identifier, a fetch,
an append, and a sleep whose duration is drawn with the `(i + k)`-th unit
draw — in that order, for every identifier including the last. -/
theorem detailLoop_trace (details : String → HttpResult) (draws : Nat → ℚ) :
    ∀ (ids : List String) (i : Nat),
      (detailLoop details draws ids i).1 =
        (ids.mapIdx (fun k job_id =>
          [Event.fetchDetail job_id,
           Event.appendRecord (scrape_job_details job_id (details job_id)),
           Event.sleepFor (random_uniform 1 3 (draws (i + k)))])).flatten := by
  intro ids
  induction ids with
  | nil => intro i; rfl
  | cons job_id rest ih =>
      intro i
      rw [List.mapIdx_cons, List.flatten_cons]
      show Event.fetchDetail job_id :: Event.appendRecord _ ::
          Event.sleepFor (random_uniform 1 3 (draws i)) ::
          (detailLoop details draws rest (i + 1)).1 = _
      rw [ih (i + 1)]
      have hfun : (fun k (job_id : String) =>
          [Event.fetchDetail job_id,
           Event.appendRecord (scrape_job_details job_id (details job_id)),
           Event.sleepFor (random_uniform 1 3 (draws (i + (k + 1))))]) =
          (fun k (job_id : String) =>
          [Event.fetchDetail job_id,
           Event.appendRecord (scrape_job_details job_id (details job_id)),
           Event.sleepFor (random_uniform 1 3 (draws ((i + 1) + k)))]) := by
        funext k job_id
        rw [show i + (k + 1) = (i + 1) + k from by omega]
      simp only [Nat.add_zero, List.cons_append, List.nil_append, hfun]

/-- The number of sleep events the detail loop emits equals the number of
identifiers. -/
theorem detailLoop_sleep_count (details : String → HttpResult) (draws : Nat → ℚ) :
    ∀ (ids : List String) (i : Nat),
      ((detailLoop details draws ids i).1.countP (fun e =>
        match e with
        | Event.sleepFor _ => true
        | _ => false)) = ids.length := by
  intro ids
  induction ids with
  | nil => intro i; rfl
  | cons job_id rest ih =>
      intro i
      simp [detailLoop, List.countP_cons, ih (i + 1)]

/-- On a non-empty identifier list, `main_run` reduces to the detail loop
followed by the serialization step. -/
theorem main_run_nonempty (title location : String) (listing : HttpResult)
    (details : String → HttpResult) (draws : Nat → ℚ)
    (h : get_job_ids listing ≠ []) :
    main_run title location listing details draws =
      { trace := (detailLoop details draws (get_job_ids listing) 0).1
        job_list := (detailLoop details draws (get_job_ids listing) 0).2
        outputFile :=
          if (detailLoop details draws (get_job_ids listing) 0).2.isEmpty then none
          else some (outputFilename title location,
            writeTable (headerRow ::
              (detailLoop details draws (get_job_ids listing) 0).2.map jobPostRow)) } := by
  unfold main_run
  rw [if_neg (by simp [List.isEmpty_iff, h])]

/-- C6: once the identifier list is non-empty, the run completes with exactly
one record per identifier, in order — the record list is the map of the
detail fetch over the identifiers, its length matches, and the k-th record
carries the k-th identifier — no matter what the per-identifier responses
are. -/
theorem C6_one_record_per_identifier (title location : String)
    (listing : HttpResult) (details : String → HttpResult) (draws : Nat → ℚ)
    (h : get_job_ids listing ≠ []) :
    (main_run title location listing details draws).job_list =
        (get_job_ids listing).map
          (fun job_id => scrape_job_details job_id (details job_id)) ∧
      (main_run title location listing details draws).job_list.length =
        (get_job_ids listing).length ∧
      (main_run title location listing details draws).job_list.map JobPost.job_id =
        get_job_ids listing := by
  have hrec := detailLoop_records details draws (get_job_ids listing) 0
  rw [main_run_nonempty title location listing details draws h]
  refine ⟨hrec, ?_, ?_⟩
  · show (detailLoop details draws (get_job_ids listing) 0).2.length = _
    rw [hrec, List.length_map]
  · show (detailLoop details draws (get_job_ids listing) 0).2.map JobPost.job_id = _
    rw [hrec, List.map_map]
    have hcomp : (JobPost.job_id ∘ fun job_id =>
        scrape_job_details job_id (details job_id)) = id := by
      funext job_id
      exact scrape_job_details_job_id job_id (details job_id)
    rw [hcomp, List.map_id]

/-- Witness for C6: two identifiers whose detail fetches both fail still
yield two records, all-null except their identifiers. -/
theorem C6_one_record_per_identifier_witness :
    get_job_ids (HttpResult.resp 200 sampleListingDoc) ≠ [] ∧
      (main_run "Python Developer" "Toronto" (HttpResult.resp 200 sampleListingDoc)
          (fun _ => HttpResult.err) sampleDraws).job_list =
        [nullJobPost "123", nullJobPost "456"] := by
  refine ⟨by decide, ?_⟩
  rw [(C6_one_record_per_identifier "Python Developer" "Toronto"
    (HttpResult.resp 200 sampleListingDoc) (fun _ => HttpResult.err) sampleDraws
    (by decide)).1]
  decide

/-- C8: in the detail loop, each iteration performs, in order, the detail
fetch, the append of its record, and an unconditional sleep — also after the
last item — whose duration `random.uniform(1, 3)` lies in `[1, 3]` whenever
the unit draw lies in `[0, 1)`; the number of sleep events equals the number
of identifiers. -/
theorem C8_loop_fetch_append_sleep (title location : String)
    (listing : HttpResult) (details : String → HttpResult) (draws : Nat → ℚ)
    (h : get_job_ids listing ≠ []) :
    (main_run title location listing details draws).trace =
        ((get_job_ids listing).mapIdx (fun i job_id =>
          [Event.fetchDetail job_id,
           Event.appendRecord (scrape_job_details job_id (details job_id)),
           Event.sleepFor (random_uniform 1 3 (draws i))])).flatten ∧
      ((main_run title location listing details draws).trace.countP (fun e =>
        match e with
        | Event.sleepFor _ => true
        | _ => false)) = (get_job_ids listing).length ∧
      (∀ r : ℚ, 0 ≤ r → r < 1 →
        1 ≤ random_uniform 1 3 r ∧ random_uniform 1 3 r < 3) := by
  rw [main_run_nonempty title location listing details draws h]
  refine ⟨?_, ?_, ?_⟩
  · rw [detailLoop_trace details draws (get_job_ids listing) 0]
    simp
  · exact detailLoop_sleep_count details draws (get_job_ids listing) 0
  · intro r h0 h1
    unfold random_uniform
    constructor <;> nlinarith

/-- Witness for C8: on a two-identifier run the trace is fetch, append, sleep,
fetch, append, sleep — with a sleep after the final item, each sleep lasting
`random.uniform(1, 3)` seconds, here 2 seconds. -/
theorem C8_loop_fetch_append_sleep_witness :
    get_job_ids (HttpResult.resp 200 sampleListingDoc) ≠ [] ∧
      random_uniform 1 3 (sampleDraws 0) = 2 ∧
      (main_run "Python Developer" "Toronto" (HttpResult.resp 200 sampleListingDoc)
          sampleDetails sampleDraws).trace =
        [Event.fetchDetail "123",
         Event.appendRecord (scrape_job_details "123" (sampleDetails "123")),
         Event.sleepFor (random_uniform 1 3 (sampleDraws 0)),
         Event.fetchDetail "456",
         Event.appendRecord (scrape_job_details "456" (sampleDetails "456")),
         Event.sleepFor (random_uniform 1 3 (sampleDraws 1))] := by
  refine ⟨by decide, by unfold random_uniform sampleDraws; norm_num, ?_⟩
  rw [(C8_loop_fetch_append_sleep "Python Developer" "Toronto"
    (HttpResult.resp 200 sampleListingDoc) sampleDetails sampleDraws (by decide)).1]
  rw [show get_job_ids (HttpResult.resp 200 sampleListingDoc) = ["123", "456"]
    from by decide]
  simp [List.mapIdx_cons]

/-! ## CSV round-trip lemmas -/

/-- Rebuilding a string from its characters is the identity. -/
theorem string_mk_data (s : String) : String.mk s.data = s := by
  cases s
  rfl

/-- A cell that needs no quoting has no delimiter, quote, or newline
character. -/
theorem not_special_of_not_needsQuote {s : List Char} (hq : needsQuote s = false) :
    ∀ c ∈ s, c ≠ ',' ∧ c ≠ '\n' ∧ c ≠ '"' := by
  intro c hc
  have hthis := List.any_eq_false.mp hq c hc
  simp only [Bool.or_eq_true, decide_eq_true_eq] at hthis
  push_neg at hthis
  obtain ⟨⟨⟨h1, h3⟩, h2⟩, _⟩ := hthis
  exact ⟨h1, h2, h3⟩

/-- Scanning an unquoted run of ordinary characters appends them to the
current cell. -/
theorem runCsv_scan_unq (s : List Char) :
    ∀ (rest cell : List Char) (row : List (List Char))
      (acc : List (List (List Char))),
      (∀ c ∈ s, c ≠ ',' ∧ c ≠ '\n' ∧ c ≠ '"') →
      runCsv (s ++ rest) CsvMode.unq cell row acc =
        runCsv rest CsvMode.unq (cell ++ s) row acc := by
  induction s with
  | nil => intro rest cell row acc _; simp
  | cons c s ih =>
      intro rest cell row acc hs
      obtain ⟨hc1, hc2, hc3⟩ := hs c (by simp)
      show runCsv (c :: (s ++ rest)) CsvMode.unq cell row acc = _
      simp only [runCsv, if_neg hc1, if_neg hc2, if_neg hc3]
      rw [ih rest (cell ++ [c]) row acc (fun d hd => hs d (by simp [hd]))]
      simp

/-- Scanning the escaped content of a quoted cell up to its closing quote
appends the unescaped characters to the current cell and leaves the machine
just after the closing quote. -/
theorem runCsv_scan_q (s : List Char) :
    ∀ (rest cell : List Char) (row : List (List Char))
      (acc : List (List (List Char))),
      runCsv (escChars s ++ '"' :: rest) CsvMode.q cell row acc =
        runCsv rest CsvMode.qq (cell ++ s) row acc := by
  induction s with
  | nil =>
      intro rest cell row acc
      show runCsv ('"' :: rest) CsvMode.q cell row acc = _
      simp [runCsv]
  | cons c s ih =>
      intro rest cell row acc
      by_cases hc : c = '"'
      · subst hc
        rw [show escChars ('"' :: s) = '"' :: '"' :: escChars s from by
          simp [escChars]]
        show runCsv ('"' :: '"' :: (escChars s ++ '"' :: rest))
          CsvMode.q cell row acc = _
        simp only [runCsv, if_pos rfl]
        rw [ih rest (cell ++ ['"']) row acc]
        simp
      · rw [show escChars (c :: s) = c :: escChars s from by simp [escChars, hc]]
        show runCsv (c :: (escChars s ++ '"' :: rest)) CsvMode.q cell row acc = _
        simp only [runCsv, if_neg hc]
        rw [ih rest (cell ++ [c]) row acc]
        simp

/-- Reading one serialized cell followed by a comma pushes the cell onto the
current row. -/
theorem runCsv_cell_comma (s rest : List Char) (row : List (List Char))
    (acc : List (List (List Char))) :
    runCsv (writeCellChars s ++ ',' :: rest) CsvMode.unq [] row acc =
      runCsv rest CsvMode.unq [] (row ++ [s]) acc := by
  by_cases hq : needsQuote s
  · rw [show writeCellChars s = '"' :: (escChars s ++ ['"']) from by
      simp [writeCellChars, hq]]
    show runCsv ('"' :: ((escChars s ++ ['"']) ++ ',' :: rest))
      CsvMode.unq [] row acc = _
    simp only [runCsv, if_neg (by decide : ¬('"' : Char) = ','),
      if_neg (by decide : ¬('"' : Char) = '\n'), if_pos rfl]
    rw [List.append_assoc, List.singleton_append]
    rw [runCsv_scan_q s (',' :: rest) [] row acc]
    simp [runCsv]
  · rw [show writeCellChars s = s from by simp [writeCellChars, hq]]
    rw [runCsv_scan_unq s (',' :: rest) [] row acc
      (not_special_of_not_needsQuote (by simpa using hq))]
    simp [runCsv]

/-- Reading one serialized cell followed by a newline ends the current row
and pushes it onto the output. -/
theorem runCsv_cell_newline (s rest : List Char) (row : List (List Char))
    (acc : List (List (List Char))) :
    runCsv (writeCellChars s ++ '\n' :: rest) CsvMode.unq [] row acc =
      runCsv rest CsvMode.unq [] [] (acc ++ [row ++ [s]]) := by
  by_cases hq : needsQuote s
  · rw [show writeCellChars s = '"' :: (escChars s ++ ['"']) from by
      simp [writeCellChars, hq]]
    show runCsv ('"' :: ((escChars s ++ ['"']) ++ '\n' :: rest))
      CsvMode.unq [] row acc = _
    simp only [runCsv, if_neg (by decide : ¬('"' : Char) = ','),
      if_neg (by decide : ¬('"' : Char) = '\n'), if_pos rfl]
    rw [List.append_assoc, List.singleton_append]
    rw [runCsv_scan_q s ('\n' :: rest) [] row acc]
    simp [runCsv]
  · rw [show writeCellChars s = s from by simp [writeCellChars, hq]]
    rw [runCsv_scan_unq s ('\n' :: rest) [] row acc
      (not_special_of_not_needsQuote (by simpa using hq))]
    simp [runCsv]

/-- Reading one serialized non-empty row followed by its newline pushes the
full row onto the output. -/
theorem runCsv_row (r : List (List Char)) :
    r ≠ [] →
    ∀ (rest : List Char) (row : List (List Char))
      (acc : List (List (List Char))),
      runCsv (writeRowChars r ++ '\n' :: rest) CsvMode.unq [] row acc =
        runCsv rest CsvMode.unq [] [] (acc ++ [row ++ r]) := by
  induction r with
  | nil => intro h; exact absurd rfl h
  | cons c cs ih =>
      intro _ rest row acc
      cases cs with
      | nil =>
          rw [show writeRowChars [c] = writeCellChars c from rfl]
          exact runCsv_cell_newline c rest row acc
      | cons c2 cs2 =>
          rw [show writeRowChars (c :: c2 :: cs2) =
            writeCellChars c ++ ',' :: writeRowChars (c2 :: cs2) from rfl]
          rw [List.append_assoc]
          rw [show (',' :: writeRowChars (c2 :: cs2)) ++ '\n' :: rest =
            ',' :: (writeRowChars (c2 :: cs2) ++ '\n' :: rest) from rfl]
          rw [runCsv_cell_comma c (writeRowChars (c2 :: cs2) ++ '\n' :: rest) row acc]
          rw [ih (by simp) rest (row ++ [c]) acc]
          simp

/-- Reading a serialized table of non-empty rows appends exactly those rows
to the output. -/
theorem runCsv_table (t : List (List (List Char))) :
    (∀ r ∈ t, r ≠ []) →
    ∀ acc : List (List (List Char)),
      runCsv (writeTableChars t) CsvMode.unq [] [] acc = acc ++ t := by
  induction t with
  | nil => intro _ acc; simp [writeTableChars, runCsv]
  | cons r rs ih =>
      intro h acc
      rw [show writeTableChars (r :: rs) =
        writeRowChars r ++ '\n' :: writeTableChars rs from rfl]
      rw [runCsv_row r (h r (by simp)) (writeTableChars rs) [] acc]
      rw [ih (fun x hx => h x (by simp [hx])) (acc ++ [[] ++ r])]
      simp

/-- Serialize-then-parse is the identity on tables of non-empty rows. -/
theorem csv_roundtrip (t : List (List String)) (h : ∀ r ∈ t, r ≠ []) :
    parseCsv (writeTable t) = t := by
  unfold parseCsv writeTable
  rw [show (String.mk (writeTableChars (t.map (fun r => r.map String.data)))).data =
    writeTableChars (t.map (fun r => r.map String.data)) from rfl]
  rw [runCsv_table (t.map (fun r => r.map String.data))
    (by
      intro r hr
      obtain ⟨x, hx, rfl⟩ := List.mem_map.mp hr
      simpa using h x hx)
    []]
  simp [List.map_map, Function.comp_def, string_mk_data]

/-- Every record's data row has its six cells, so it is non-empty. -/
theorem jobPostRow_ne_nil (p : JobPost) : jobPostRow p ≠ [] := by
  simp [jobPostRow]

/-- C7: serializing any sequence of records to the CSV file and re-parsing
that file yields the header row followed by exactly one row per record, whose
column values are the records' string representations, null rendered as an
empty cell (the `getD ""` in `jobPostRow`). -/
theorem C7_serialization_roundtrip (records : List JobPost) :
    parseCsv (writeTable (headerRow :: records.map jobPostRow)) =
        headerRow :: records.map jobPostRow ∧
      (records.map jobPostRow).length = records.length := by
  refine ⟨csv_roundtrip _ ?_, List.length_map _ _⟩
  intro r hr
  simp only [List.mem_cons] at hr
  rcases hr with rfl | hr
  · simp [headerRow]
  · obtain ⟨p, _, rfl⟩ := List.mem_map.mp hr
    exact jobPostRow_ne_nil p

/-- C4: whenever the record list is non-empty, `main` writes exactly one file,
whose name is the location and title with spaces replaced by underscores, and
whose content parses back to the header row of the six field names followed by
exactly one data row per record, in discovery order, columns in field
declaration order. -/
theorem C4_output_file (title location : String) (listing : HttpResult)
    (details : String → HttpResult) (draws : Nat → ℚ)
    (h : (main_run title location listing details draws).job_list ≠ []) :
    (main_run title location listing details draws).outputFile =
        some (outputFilename title location,
          writeTable (headerRow ::
            (main_run title location listing details draws).job_list.map jobPostRow)) ∧
      parseCsv (writeTable (headerRow ::
          (main_run title location listing details draws).job_list.map jobPostRow)) =
        headerRow ::
          (main_run title location listing details draws).job_list.map jobPostRow := by
  constructor
  · by_cases hids : (get_job_ids listing).isEmpty
    · exfalso
      apply h
      unfold main_run
      rw [if_pos hids]
    · have hne : get_job_ids listing ≠ [] := by
        simpa [List.isEmpty_iff] using hids
      rw [main_run_nonempty title location listing details draws hne] at h ⊢
      have hrecne : ¬(detailLoop details draws (get_job_ids listing) 0).2.isEmpty := by
        simpa [List.isEmpty_iff] using h
      show (if (detailLoop details draws (get_job_ids listing) 0).2.isEmpty then none
        else some (outputFilename title location,
          writeTable (headerRow ::
            (detailLoop details draws (get_job_ids listing) 0).2.map jobPostRow))) = _
      rw [if_neg hrecne]
  · apply csv_roundtrip
    intro r hr
    simp only [List.mem_cons] at hr
    rcases hr with rfl | hr
    · simp [headerRow]
    · obtain ⟨p, _, rfl⟩ := List.mem_map.mp hr
      exact jobPostRow_ne_nil p

set_option maxRecDepth 100000 in
/-- Witness for C4: on identifiers 123 and 456 with both detail fetches fully
succeeding, the written file is named from the configured location and title
and parses to the header row plus exactly those two data rows, in order, with
all six columns populated. -/
theorem C4_output_file_witness :
    (main_run "Python Developer" "Toronto" (HttpResult.resp 200 sampleListingDoc)
        sampleDetails sampleDraws).job_list ≠ [] ∧
      get_job_ids (HttpResult.resp 200 sampleListingDoc) = ["123", "456"] ∧
      (main_run "Python Developer" "Toronto" (HttpResult.resp 200 sampleListingDoc)
          sampleDetails sampleDraws).outputFile =
        some ("Toronto_Python_Developer_jobs.csv",
          writeTable [headerRow,
            ["123", "Python Developer", "Acme Corp", "2 weeks ago",
             "55 applicants", "Toronto, ON"],
            ["456", "Python Developer", "Acme Corp", "2 weeks ago",
             "55 applicants", "Toronto, ON"]]) ∧
      parseCsv (writeTable [headerRow,
          ["123", "Python Developer", "Acme Corp", "2 weeks ago",
           "55 applicants", "Toronto, ON"],
          ["456", "Python Developer", "Acme Corp", "2 weeks ago",
           "55 applicants", "Toronto, ON"]]) =
        [headerRow,
         ["123", "Python Developer", "Acme Corp", "2 weeks ago",
          "55 applicants", "Toronto, ON"],
         ["456", "Python Developer", "Acme Corp", "2 weeks ago",
          "55 applicants", "Toronto, ON"]] ∧
      (∀ cell ∈ ["123", "Python Developer", "Acme Corp", "2 weeks ago",
        "55 applicants", "Toronto, ON"], cell ≠ "") := by
  have hmain := C4_output_file "Python Developer" "Toronto"
    (HttpResult.resp 200 sampleListingDoc) sampleDetails sampleDraws (by decide)
  refine ⟨by decide, by decide, ?_, ?_, by decide⟩
  · exact hmain.1.trans (by decide)
  · have he : headerRow ::
        (main_run "Python Developer" "Toronto" (HttpResult.resp 200 sampleListingDoc)
          sampleDetails sampleDraws).job_list.map jobPostRow =
        [headerRow,
         ["123", "Python Developer", "Acme Corp", "2 weeks ago",
          "55 applicants", "Toronto, ON"],
         ["456", "Python Developer", "Acme Corp", "2 weeks ago",
          "55 applicants", "Toronto, ON"]] := by decide
    exact he ▸ hmain.2

end Scraper
